import Mathlib

/-!
Verification development for the PixDB promise-based IndexedDB wrapper
(src/pixdb.js).  The wrapper is a thin facade over the browser IndexedDB
engine.  We shallowly embed the facade methods together with a model of
the IndexedDB engine operations they drive (object stores with a primary
key and secondary indexes, inclusive key ranges, transactions with
all-or-nothing commit).  Keys and index keys are modelled as natural
numbers; a JavaScript value that is absent (undefined) is modelled as
Option.none, and JavaScript truthiness tests such as
"if (lowerBound and upperBound)" are translated faithfully, so a present
but falsy value (the number 0, the empty string) is distinguished from a
truthy one.
-/

/-- A JavaScript-side failure: the error objects the facade can observe or
construct (TypeError from a null dereference, DOMException classes from the
engine, the facade wrapper errors). -/
inductive JsErr where
  | typeError
  | constraintError
  | dataError
  | noSupport
  | openError (code : Nat)
  | operationError (code : Nat)
deriving DecidableEq, Repr

/-- A promise rejection value: the facade rejects either with a plain
boolean (drop rejects false) or with an error object. -/
inductive Rejection where
  | value (b : Bool)
  | err (e : JsErr)
deriving DecidableEq, Repr

/-- A stored record: the primary key field (the store keyPath), one
secondary index key field, and an opaque payload value. -/
structure Rec where
  key : Nat
  idx : Nat
  val : Nat
deriving DecidableEq, Repr

/-- The contents of one named object store. -/
abbrev StoreData := List Rec

/-- An IDBKeyRange value, as produced by IDBKeyRange.bound,
IDBKeyRange.lowerBound and IDBKeyRange.upperBound (all inclusive here,
matching the calls in the source). -/
inductive IDBKeyRange where
  | bound (lower upper : Nat)
  | lowerBound (lower : Nat)
  | upperBound (upper : Nat)
deriving DecidableEq, Repr

/-- JavaScript truthiness of an optional numeric value: undefined and the
number 0 are falsy. -/
def jsTruthy : Option Nat → Bool
  | none => false
  | some n => n != 0

/-- JavaScript truthiness of an optional string value: undefined and the
empty string are falsy. -/
def jsTruthyStr : Option String → Bool
  | none => false
  | some s => s != ""

namespace PixDB

/-- Embeds the private method bound(lowerBound, upperBound) of PixDB:
  if (lowerBound and upperBound) bound = IDBKeyRange.bound(lowerBound, upperBound);
  else if (lowerBound) bound = IDBKeyRange.lowerBound(lowerBound);
  else if (upperBound) bound = IDBKeyRange.upperBound(upperBound);
  return bound;
The result is undefined (none) when neither test succeeds. -/
def bound (lowerBound upperBound : Option Nat) : Option IDBKeyRange :=
  if jsTruthy lowerBound && jsTruthy upperBound then
    some (.bound (lowerBound.getD 0) (upperBound.getD 0))
  else if jsTruthy lowerBound then
    some (.lowerBound (lowerBound.getD 0))
  else if jsTruthy upperBound then
    some (.upperBound (upperBound.getD 0))
  else
    none

end PixDB

/-- Membership of a key in an optional key range; an absent range
(undefined, as passed to count/getAll/openCursor) matches every key. -/
def inRange (q : Option IDBKeyRange) (k : Nat) : Bool :=
  match q with
  | none => true
  | some (.bound l u) => decide (l ≤ k) && decide (k ≤ u)
  | some (.lowerBound l) => decide (l ≤ k)
  | some (.upperBound u) => decide (k ≤ u)

/-- The object a request runs against after PixDB query(storeName,
indexName, write): either the object store itself (primary key space) or
one of its indexes (secondary key space).  The model store carries a
single secondary index key field, standing for whichever index the name
denotes. -/
inductive QueryTarget where
  | primary
  | idx (name : String)
deriving DecidableEq, Repr

/-- The key of a record in the key space of a query target. -/
def QueryTarget.keyOf : QueryTarget → Rec → Nat
  | .primary, r => r.key
  | .idx _, r => r.idx

namespace PixDB

/-- Embeds the store selection of the private method
query(storeName, indexName, write):
  store: indexName and not write ? store.index(indexName) : store
(the transaction mode readwrite-vs-readonly does not affect which key
space is addressed, only this selection does). -/
def querySource (indexName : Option String) (write : Bool) : QueryTarget :=
  if jsTruthyStr indexName && !write then .idx (indexName.getD "") else .primary

end PixDB

/-- The store/index method names dispatched through the private method
exec(storeName, indexName, method, args). -/
inductive Method where
  | count
  | get
  | getAll
  | getAllKeys
  | delete
  | clear
deriving DecidableEq, Repr

namespace PixDB

/-- Embeds the write test in exec:
  write = method === delete or method === clear. -/
def execWrite (m : Method) : Bool :=
  m == .delete || m == .clear

/-- The query target used by exec for a given index argument and method:
exec calls query(storeName, indexName, write) with the write flag above. -/
def execTarget (indexName : Option String) (m : Method) : QueryTarget :=
  PixDB.querySource indexName (PixDB.execWrite m)

end PixDB

/-- Ordering of records in a key space: an object store enumerates by
primary key; an index enumerates by index key with ties broken by primary
key (IndexedDB index entries are sorted by key then by primary key). -/
def recLE (t : QueryTarget) (a b : Rec) : Bool :=
  match t with
  | .primary => decide (a.key ≤ b.key)
  | .idx _ => decide (a.idx < b.idx) || (a.idx == b.idx && decide (a.key ≤ b.key))

/-- Insert a record into a list sorted by recLE, keeping it sorted. -/
def insertRecBy (t : QueryTarget) (r : Rec) : List Rec → List Rec
  | [] => [r]
  | x :: xs => if recLE t r x then r :: x :: xs else x :: insertRecBy t r xs

/-- Insertion sort of records by the key space ordering. -/
def sortRecs (t : QueryTarget) : List Rec → List Rec
  | [] => []
  | x :: xs => insertRecBy t x (sortRecs t xs)

/-- The records of a store whose key (in the key space of the target)
falls in the optional range. -/
def matching (s : StoreData) (t : QueryTarget) (q : Option IDBKeyRange) : StoreData :=
  s.filter (fun r => inRange q (t.keyOf r))

/-- Does the store already contain a record with the given primary key? -/
def containsKey (s : StoreData) (k : Nat) : Bool :=
  s.any (fun r => r.key == k)

namespace IDB

/-- Engine count(query): the number of entries of the addressed key space
whose key is in the range (every record contributes one index entry). -/
def count (s : StoreData) (t : QueryTarget) (q : Option IDBKeyRange) : Nat :=
  (matching s t q).length

/-- Engine get(key): the first matching record in key-space order, or
undefined (none) when there is no match; absence is a successful result,
not an error. -/
def get (s : StoreData) (t : QueryTarget) (key : Nat) : Option Rec :=
  (sortRecs t (s.filter (fun r => t.keyOf r == key))).head?

/-- Engine getAll(query, count): matching records in key-space order,
truncated to the optional maximum count. -/
def getAll (s : StoreData) (t : QueryTarget) (q : Option IDBKeyRange)
    (cnt : Option Nat) : List Rec :=
  let l := sortRecs t (matching s t q)
  match cnt with
  | none => l
  | some n => l.take n

/-- Engine getAllKeys(query, count): the primary keys of the matching
records in key-space order (an index yields the primary key of each
matching entry). -/
def getAllKeys (s : StoreData) (t : QueryTarget) (q : Option IDBKeyRange)
    (cnt : Option Nat) : List Nat :=
  (IDB.getAll s t q cnt).map Rec.key

/-- Engine delete(key) on an object store: removes the record with that
primary key; deleting an absent key is a successful no-op. -/
def deleteKey (s : StoreData) (key : Nat) : StoreData :=
  s.filter (fun r => !(r.key == key))

/-- Engine delete(query) on an object store with a key-range argument:
removes every record whose primary key is in the range.  Called with
undefined (no range, as deleteAll builds when both bounds are absent) the
engine raises DataError, since undefined is not a valid key or range. -/
def deleteRange (s : StoreData) (q : Option IDBKeyRange) : Except JsErr StoreData :=
  match q with
  | none => .error .dataError
  | some r => .ok (s.filter (fun x => !(inRange (some r) x.key)))

/-- Engine clear(): removes every record of the store. -/
def clear (_ : StoreData) : StoreData := []

/-- Engine add(value): fails with ConstraintError when a record with the
same primary key exists, otherwise stores the record. -/
def add (s : StoreData) (r : Rec) : Except JsErr StoreData :=
  if containsKey s r.key then .error .constraintError else .ok (s ++ [r])

/-- Engine put(value): stores the record, replacing any record with the
same primary key. -/
def put (s : StoreData) (r : Rec) : StoreData :=
  (s.filter (fun x => !(x.key == r.key))) ++ [r]

end IDB

/-- The item argument of add/put: a single record or an array of records.
The private method update normalises it with
  record = Array.isArray(record) ? record : [ record ]. -/
inductive ItemArg where
  | one (r : Rec)
  | many (rs : List Rec)
deriving DecidableEq, Repr

/-- The normalisation "ensure values in an array" performed by update. -/
def ItemArg.toList : ItemArg → List Rec
  | .one r => [r]
  | .many rs => rs

/-- The writes issued inside the readwrite transaction of update:
  record.forEach(v => if (overwrite) store.put(v) else store.add(v)).
Returns the store contents the transaction would commit, or the first
request error (which makes the engine abort the transaction). -/
def writeAll (overwrite : Bool) : StoreData → List Rec → Except JsErr StoreData
  | s, [] => .ok s
  | s, r :: rest =>
    if overwrite then
      writeAll overwrite (IDB.put s r) rest
    else
      match IDB.add s r with
      | .ok s2 => writeAll overwrite s2 rest
      | .error e => .error e

namespace PixDB

/-- Embeds the private method update(storeName, record, overwrite): one
readwrite transaction issuing one add/put per record, then commit.  The
promise resolves on transaction.oncomplete and rejects on
transaction.onerror.  The engine transaction is all-or-nothing: on a
request error the transaction aborts and the store keeps its previous
contents (IndexedDB transaction atomicity, which this facade relies on). -/
def update (db : StoreData) (record : ItemArg) (overwrite : Bool) :
    StoreData × Except Rejection Unit :=
  match writeAll overwrite db record.toList with
  | .ok s2 => (s2, .ok ())
  | .error e => (db, .error (.err e))

/-- Embeds add({store, item = []}): overwrite-forbidding insert.  The item
argument defaults to the empty array when omitted. -/
def add (db : StoreData) (item : Option ItemArg) : StoreData × Except Rejection Unit :=
  PixDB.update db (item.getD (.many [])) false

/-- Embeds put({store, item = []}): overwrite-permitting insert. -/
def put (db : StoreData) (item : Option ItemArg) : StoreData × Except Rejection Unit :=
  PixDB.update db (item.getD (.many [])) true

/-- Embeds count({store, index, lowerBound, upperBound}):
exec(store, index, count, bound(lowerBound, upperBound)). -/
def count (db : StoreData) (index : Option String) (lowerBound upperBound : Option Nat) :
    Except Rejection Nat :=
  .ok (IDB.count db (PixDB.execTarget index .count) (PixDB.bound lowerBound upperBound))

/-- Embeds get({store, index, key}): exec(store, index, get, key).  The
result is the record, or undefined (none) when no record matches. -/
def get (db : StoreData) (index : Option String) (key : Nat) :
    Except Rejection (Option Rec) :=
  .ok (IDB.get db (PixDB.execTarget index .get) key)

/-- Embeds getAll({store, index, lowerBound, upperBound, count}):
exec(store, index, getAll, [bound(lowerBound, upperBound), count]). -/
def getAll (db : StoreData) (index : Option String) (lowerBound upperBound : Option Nat)
    (cnt : Option Nat) : Except Rejection (List Rec) :=
  .ok (IDB.getAll db (PixDB.execTarget index .getAll)
    (PixDB.bound lowerBound upperBound) cnt)

/-- Embeds getAllKeys({store, index, lowerBound, upperBound, count}):
exec(store, index, getAllKeys, [bound(lowerBound, upperBound), count]). -/
def getAllKeys (db : StoreData) (index : Option String) (lowerBound upperBound : Option Nat)
    (cnt : Option Nat) : Except Rejection (List Nat) :=
  .ok (IDB.getAllKeys db (PixDB.execTarget index .getAllKeys)
    (PixDB.bound lowerBound upperBound) cnt)

/-- Embeds delete({store, key}): exec(store, null, delete, [key]).  The
method name delete makes exec open a readwrite transaction, so query
returns the object store itself; IDBIndex has no delete method, so a
non-primary target would fail with a TypeError (unreachable here). -/
def delete (db : StoreData) (key : Nat) : StoreData × Except Rejection Unit :=
  match PixDB.execTarget none .delete with
  | .primary => (IDB.deleteKey db key, .ok ())
  | .idx _ => (db, .error (.err .typeError))

/-- Embeds deleteAll({store, index, lowerBound, upperBound}):
exec(store, index, delete, [bound(lowerBound, upperBound)]).  The method
name delete makes exec open a readwrite transaction, so the index
argument is ignored by query and the range applies to primary keys. -/
def deleteAll (db : StoreData) (index : Option String)
    (lowerBound upperBound : Option Nat) : StoreData × Except Rejection Unit :=
  match PixDB.execTarget index .delete with
  | .primary =>
    match IDB.deleteRange db (PixDB.bound lowerBound upperBound) with
    | .ok s2 => (s2, .ok ())
    | .error e => (db, .error (.err e))
  | .idx _ => (db, .error (.err .typeError))

/-- Embeds clear({store}): exec(store, null, clear). -/
def clear (db : StoreData) : StoreData × Except Rejection Unit :=
  match PixDB.execTarget none .clear with
  | .primary => (IDB.clear db, .ok ())
  | .idx _ => (db, .error (.err .typeError))

end PixDB

/-- Cursor traversal direction, as accepted by openCursor. -/
inductive Direction where
  | next
  | nextunique
  | prev
  | prevunique
deriving DecidableEq, Repr

/-- Keep, for each distinct key of the key space, only the entry with the
lowest primary key (the records are already sorted by key then primary
key), as the unique cursor directions do. -/
def dedupKeys (t : QueryTarget) : List Rec → List Rec
  | [] => []
  | r :: rest =>
    r :: dedupKeys t (rest.filter (fun x => !(t.keyOf x == t.keyOf r)))
termination_by l => l.length
decreasing_by
  simp only [List.length_cons]
  exact Nat.lt_succ_of_le (List.length_filter_le _ _)

/-- The sequence of records a cursor visits over the given (already
range-filtered) store portion, in the order determined by the key space
and the direction. -/
def orderedRecs (t : QueryTarget) (d : Direction) (s : StoreData) : List Rec :=
  let asc := sortRecs t s
  match d with
  | .next => asc
  | .prev => asc.reverse
  | .nextunique => dedupKeys t asc
  | .prevunique => (dedupKeys t asc).reverse

/-- Embeds the advance computation of getCursor:
  cursor.advance( (callback and callback(cursor)) or 1 )
An absent callback, a callback returning undefined, and a callback
returning the falsy number 0 all advance by 1. -/
def jsAdvance (callback : Option (Rec → Option Nat)) (r : Rec) : Nat :=
  match callback with
  | none => 1
  | some f =>
    match f r with
    | none => 1
    | some n => if n == 0 then 1 else n

/-- The engine fault schedule for a cursor request: some (k, e) makes the
k-th cursor event fire onerror with error e instead of onsuccess (an
environmental engine failure; none models a fault-free run). -/
def errHit (errAt : Option (Nat × JsErr)) (i : Nat) : Option JsErr :=
  match errAt with
  | none => none
  | some (k, e) => if k == i then some e else none

/-- The event loop of getCursor over the in-range records.  The skip
counter models cursor.advance(n) consuming n - 1 positions without firing
an event; an event fires when skip reaches 0 (live cursor) or the range
is exhausted (null cursor).  Event i either fails (onerror: reject with
the reported error) or delivers the cursor: a live cursor runs the
callback on the current record and advances by jsAdvance; a null cursor
resolves true.  Returns the list of records the callback was invoked on,
together with the promise outcome. -/
def cursorRun (callback : Option (Rec → Option Nat)) (errAt : Option (Nat × JsErr)) :
    Nat → Nat → List Rec → List Rec × Except JsErr Bool
  | i, _, [] =>
    (match errHit errAt i with
      | some e => ([], .error e)
      | none => ([], .ok true))
  | i, skip + 1, _ :: rest => cursorRun callback errAt i skip rest
  | i, 0, r :: rest =>
    (match errHit errAt i with
      | some e => ([], .error e)
      | none =>
        let res := cursorRun callback errAt (i + 1) (jsAdvance callback r - 1) rest
        (r :: res.1, res.2))

namespace PixDB

/-- Embeds getCursor({store, index, lowerBound, upperBound, direction,
callback}): query(store, index) is called without a write flag, so a
truthy index name selects the index; openCursor receives
bound(lowerBound, upperBound) and the direction.  The first component is
the sequence of records passed to the callback; the second is the promise
outcome: resolve(true) on exhaustion, reject(request.error) on an engine
fault. -/
def getCursor (db : StoreData) (index : Option String)
    (lowerBound upperBound : Option Nat) (direction : Direction)
    (callback : Option (Rec → Option Nat)) (errAt : Option (Nat × JsErr)) :
    List Rec × Except Rejection Bool :=
  let t := PixDB.querySource index false
  let res := cursorRun callback errAt 0 0
    (orderedRecs t direction (matching db t (PixDB.bound lowerBound upperBound)))
  (res.1,
    match res.2 with
    | .ok b => .ok b
    | .error e => .error (.err e))

end PixDB

/-- The connection-lifecycle state of a PixDB instance: the private
fields db (the opaque connection handle, null when disconnected),
dbName and dbVersion. -/
structure PixDBState where
  db : Option Nat
  dbName : Option String
  dbVersion : Option Nat
deriving DecidableEq, Repr

/-- The environment a connection attempt runs in: whether the host has
indexedDB support, and the outcome the engine reports for
indexedDB.open (the handle on success, the error event otherwise). -/
structure ConnectEnv where
  indexedDBSupported : Bool
  openOutcome : Except JsErr Nat
deriving Repr

namespace PixDB

/-- Embeds the getter isConnected: !!this.db. -/
def isConnected (s : PixDBState) : Bool := s.db.isSome

/-- Embeds the private method dbConnect(dbUpgradeFn): rejects when
indexedDB is unsupported; otherwise opens the database, storing the
handle and resolving on success, rejecting with the wrapped engine error
on failure. -/
def dbConnect (s : PixDBState) (env : ConnectEnv) : PixDBState × Except Rejection Unit :=
  if !env.indexedDBSupported then
    (s, .error (.err .noSupport))
  else
    match env.openOutcome with
    | .ok c => ({ s with db := some c }, .ok ())
    | .error e => (s, .error (.err e))

/-- Embeds connect(): dbConnect().then(() => true).catch(() => false).
Every outcome of the underlying open is collapsed into a resolved
boolean. -/
def connect (s : PixDBState) (env : ConnectEnv) : PixDBState × Except Rejection Bool :=
  match PixDB.dbConnect s env with
  | (s2, .ok _) => (s2, .ok true)
  | (s2, .error _) => (s2, .ok false)

/-- Embeds close(): this.db.close(); this.db = null.  When the handle is
already null the member access throws a TypeError synchronously; when it
is non-null the close succeeds and only clears the handle. -/
def close (s : PixDBState) : Except JsErr PixDBState :=
  match s.db with
  | none => .error .typeError
  | some _ => .ok { s with db := none }

/-- Embeds drop(): inside the promise executor it calls close()
unconditionally, then indexedDB.deleteDatabase(this.dbName); onsuccess
clears dbName/dbVersion and resolves true, onerror rejects false.  A
throw inside the executor (the null dereference in close) rejects the
promise with the thrown error.  The deleteOk flag is the engine-reported
outcome of the database deletion. -/
def drop (s : PixDBState) (deleteOk : Bool) : PixDBState × Except Rejection Bool :=
  match PixDB.close s with
  | .error e => (s, .error (.err e))
  | .ok s1 =>
    if deleteOk then
      ({ s1 with dbName := none, dbVersion := none }, .ok true)
    else
      (s1, .error (.value false))

end PixDB

/-! Helper lemmas shared across the claim theorems. -/

theorem insertRecBy_length (t : QueryTarget) (r : Rec) (l : List Rec) :
    (insertRecBy t r l).length = l.length + 1 := by
  induction l with
  | nil => rfl
  | cons x xs ih =>
    simp only [insertRecBy]
    split
    · simp
    · simp [ih]

theorem sortRecs_length (t : QueryTarget) (l : List Rec) :
    (sortRecs t l).length = l.length := by
  induction l with
  | nil => rfl
  | cons x xs ih => simp [sortRecs, insertRecBy_length, ih]

theorem containsKey_append (s : StoreData) (r : Rec) (k : Nat)
    (h : containsKey s k = true) : containsKey (s ++ [r]) k = true := by
  simp only [containsKey] at h
  simp only [containsKey, List.any_append, h, Bool.true_or]

theorem writeAll_conflict (rs : List Rec) :
    ∀ db : StoreData, (∃ r ∈ rs, containsKey db r.key = true) →
      writeAll false db rs = .error .constraintError := by
  induction rs with
  | nil => intro db h; simp at h
  | cons r0 rest ih =>
    intro db h
    by_cases hc : containsKey db r0.key = true
    · simp [writeAll, IDB.add, hc]
    · have hc2 : containsKey db r0.key = false := by
        simpa using hc
      obtain ⟨r, hr, hk⟩ := h
      rcases List.mem_cons.mp hr with h1 | h2
      · subst h1; exact absurd hk hc
      · have hrest : writeAll false (db ++ [r0]) rest = .error .constraintError :=
          ih (db ++ [r0]) ⟨r, h2, containsKey_append db r0 r.key hk⟩
        simp [writeAll, IDB.add, hc2, hrest]

/-- Walking the skip counter is the same as dropping that many records:
cursor.advance(n) positions the cursor n records further. -/
theorem cursorRun_skip_drop (cb : Option (Rec → Option Nat))
    (errAt : Option (Nat × JsErr)) (l : List Rec) :
    ∀ i skip, cursorRun cb errAt i skip l = cursorRun cb errAt i 0 (l.drop skip) := by
  induction l with
  | nil =>
    intro i skip
    rw [List.drop_nil]
    cases skip <;> rfl
  | cons r rest ih =>
    intro i skip
    match skip with
    | 0 => rfl
    | s + 1 => simpa [cursorRun] using ih i s

/-- A fault-free cursor run always exhausts the range and resolves true. -/
theorem cursorRun_fault_free_resolves (cb : Option (Rec → Option Nat)) (l : List Rec) :
    ∀ i skip, (cursorRun cb none i skip l).2 = .ok true := by
  induction l with
  | nil => intro i skip; simp [cursorRun, errHit]
  | cons r rest ih =>
    intro i skip
    match skip with
    | 0 => simp [cursorRun, errHit, ih]
    | s + 1 => simpa [cursorRun] using ih i s

/-- A cursor run whose fault schedule hits one of the fired events (the
per-record events and the final exhaustion event) rejects with the
scheduled engine error. -/
theorem cursorRun_fault_rejects (cb : Option (Rec → Option Nat)) (e : JsErr)
    (l : List Rec) :
    ∀ i skip k, i ≤ k → k ≤ i + (cursorRun cb none i skip l).1.length →
      (cursorRun cb (some (k, e)) i skip l).2 = .error e := by
  induction l with
  | nil =>
    intro i skip k hik hk
    have hki : k = i := by
      simp only [cursorRun, errHit, List.length_nil] at hk
      omega
    subst hki
    simp [cursorRun, errHit]
  | cons r rest ih =>
    intro i skip k hik hk
    match skip with
    | s + 1 =>
      simp only [cursorRun] at hk ⊢
      exact ih i s k hik hk
    | 0 =>
      by_cases hki : k = i
      · subst hki
        simp [cursorRun, errHit]
      · have hik2 : i + 1 ≤ k := by omega
        have hk2 : k ≤ i + 1 + (cursorRun cb none (i + 1) (jsAdvance cb r - 1) rest).1.length := by
          simp only [cursorRun, errHit, List.length_cons] at hk
          omega
        have hne : (k == i) = false := by
          simp [hki]
        simp only [cursorRun, errHit, hne]
        exact ih (i + 1) (jsAdvance cb r - 1) k hik2 hk2

/-- A fault-free getCursor call resolves true once the cursor is
exhausted. -/
theorem getCursor_fault_free (db : StoreData) (index : Option String)
    (lb ub : Option Nat) (d : Direction) (cb : Option (Rec → Option Nat)) :
    (PixDB.getCursor db index lb ub d cb none).2 = .ok true := by
  simp [PixDB.getCursor, cursorRun_fault_free_resolves]

/-- A getCursor call whose fault schedule hits one of its events rejects
with the engine-reported error. -/
theorem getCursor_fault (db : StoreData) (index : Option String)
    (lb ub : Option Nat) (d : Direction) (cb : Option (Rec → Option Nat))
    (k : Nat) (e : JsErr)
    (hk : k ≤ (PixDB.getCursor db index lb ub d cb none).1.length) :
    (PixDB.getCursor db index lb ub d cb (some (k, e))).2 = .error (.err e) := by
  simp only [PixDB.getCursor] at hk ⊢
  have h2 := cursorRun_fault_rejects cb e
    (orderedRecs (PixDB.querySource index false) d
      (matching db (PixDB.querySource index false) (PixDB.bound lb ub)))
    0 0 k (Nat.zero_le k) (by simpa using hk)
  simp [h2]

/-! Theorems for the claims. -/

/-- C1: for every store and every batch of records containing at least one
record whose key already exists in the store, the overwrite-forbidding
insert (add) rejects with a ConstraintError failure and the store contents
(hence its record count) are exactly as they were before the call: the
whole transaction fails with no record of the batch applied. -/
theorem C1_add_existing_key_rejects_atomically (db : StoreData) (item : ItemArg)
    (h : ∃ r ∈ item.toList, containsKey db r.key = true) :
    PixDB.add db (some item) = (db, .error (.err .constraintError)) ∧
    IDB.count (PixDB.add db (some item)).1 .primary none =
      IDB.count db .primary none := by
  have hw := writeAll_conflict item.toList db h
  constructor
  · simp [PixDB.add, PixDB.update, hw]
  · simp [PixDB.add, PixDB.update, hw]

/-- Witness for C1 at a concrete store and batch: the store holds key 1,
the batch adds key 2 and then key 1 again; add rejects with
ConstraintError and the store is unchanged. -/
theorem C1_witness :
    (∃ r ∈ (ItemArg.many [⟨2, 0, 0⟩, ⟨1, 5, 5⟩]).toList,
      containsKey [⟨1, 0, 0⟩] r.key = true) ∧
    PixDB.add [⟨1, 0, 0⟩] (some (.many [⟨2, 0, 0⟩, ⟨1, 5, 5⟩])) =
      ([⟨1, 0, 0⟩], .error (.err .constraintError)) :=
  ⟨by decide,
   (C1_add_existing_key_rejects_atomically [⟨1, 0, 0⟩]
     (.many [⟨2, 0, 0⟩, ⟨1, 5, 5⟩]) (by decide)).1⟩

/-- C7: absence of a queried record is never an error: get resolves with
the undefined sentinel (not a rejection) when no record matches, and
delete resolves successfully whether or not the key existed; deleting an
absent key also leaves the store unchanged. -/
theorem C7_absence_is_not_an_error (db db2 : StoreData) (index : Option String)
    (key k2 k3 : Nat)
    (hnone : ∀ r ∈ db, (PixDB.execTarget index .get).keyOf r ≠ key)
    (habs : containsKey db2 k3 = false) :
    PixDB.get db index key = .ok none ∧
    (PixDB.delete db k2).2 = .ok () ∧
    (PixDB.delete db2 k3).1 = db2 := by
  refine ⟨?_, rfl, ?_⟩
  · have hfil : db.filter (fun r => (PixDB.execTarget index .get).keyOf r == key) = [] := by
      rw [List.filter_eq_nil_iff]
      intro r hr
      simpa using hnone r hr
    simp [PixDB.get, IDB.get, hfil, sortRecs]
  · have hall : ∀ r ∈ db2, (!(r.key == k3)) = true := by
      intro r hr
      simp only [containsKey, List.any_eq_false] at habs
      simpa using habs r hr
    show IDB.deleteKey db2 k3 = db2
    exact List.filter_eq_self.mpr hall

/-- Witness for C7 at a concrete store: key 9 is absent; get returns the
sentinel and delete is a successful no-op. -/
theorem C7_witness :
    PixDB.get [⟨1, 2, 3⟩] none 9 = .ok none ∧
    (PixDB.delete [⟨1, 2, 3⟩] 9).2 = .ok () ∧
    (PixDB.delete [⟨1, 2, 3⟩] 9).1 = [⟨1, 2, 3⟩] :=
  C7_absence_is_not_an_error [⟨1, 2, 3⟩] [⟨1, 2, 3⟩] none 9 9 9
    (by decide) (by decide)

/-- C8: for every store, optional index and optional bounds, the length of
the array returned by getAllKeys (with no count limit, as count and
getAllKeys take the same store, index and bounds) equals the number
returned by count. -/
theorem C8_getAllKeys_length_eq_count (db : StoreData) (index : Option String)
    (lb ub : Option Nat) :
    Except.map List.length (PixDB.getAllKeys db index lb ub none) =
      PixDB.count db index lb ub := by
  have ht : PixDB.execTarget index .getAllKeys = PixDB.execTarget index .count := rfl
  simp [PixDB.getAllKeys, PixDB.count, IDB.getAllKeys, IDB.getAll, IDB.count,
    Except.map, ht, sortRecs_length]

/-- C10: add and put accept an empty batch: with item omitted (defaulting
to the empty array) or an explicit empty array, the operation commits an
empty transaction, resolves, and leaves the store unchanged. -/
theorem C10_empty_batch_is_noop (db : StoreData) :
    PixDB.add db none = (db, .ok ()) ∧
    PixDB.add db (some (.many [])) = (db, .ok ()) ∧
    PixDB.put db none = (db, .ok ()) ∧
    PixDB.put db (some (.many [])) = (db, .ok ()) :=
  ⟨rfl, rfl, rfl, rfl⟩

/-- C2, counterexample to the claim as stated: with both bounds given but
the lower bound being the valid key 0 (falsy in JavaScript), the helper
does not produce the inclusive between range; the truthiness test treats
the given bound 0 as absent and produces the at-most-upper range. -/
theorem C2_counterexample :
    PixDB.bound (some 0) (some 5) = some (IDBKeyRange.upperBound 5) ∧
    PixDB.bound (some 0) (some 5) ≠ some (IDBKeyRange.bound 0 5) := by
  decide

/-- C2, amended: for truthy (nonzero) given bounds the helper produces the
unbounded range when neither bound is given, the at-least-lower range when
only the lower is given, the at-most-upper range when only the upper is
given, and the inclusive between range when both are given (a given falsy
bound is treated as absent); and the helper is the single shared range
constructor: any two bound pairs the helper maps to the same range are
interchangeable in count, getAll, getAllKeys, deleteAll and getCursor. -/
theorem C2_bound_helper_shared (l u : Nat) (db : StoreData) (index : Option String)
    (lb ub lb2 ub2 cnt : Option Nat) (d : Direction)
    (cb : Option (Rec → Option Nat)) (errAt : Option (Nat × JsErr))
    (hl : l ≠ 0) (hu : u ≠ 0)
    (hb : PixDB.bound lb ub = PixDB.bound lb2 ub2) :
    PixDB.bound none none = none ∧
    PixDB.bound (some l) none = some (.lowerBound l) ∧
    PixDB.bound none (some u) = some (.upperBound u) ∧
    PixDB.bound (some l) (some u) = some (.bound l u) ∧
    PixDB.count db index lb ub = PixDB.count db index lb2 ub2 ∧
    PixDB.getAll db index lb ub cnt = PixDB.getAll db index lb2 ub2 cnt ∧
    PixDB.getAllKeys db index lb ub cnt = PixDB.getAllKeys db index lb2 ub2 cnt ∧
    PixDB.deleteAll db index lb ub = PixDB.deleteAll db index lb2 ub2 ∧
    PixDB.getCursor db index lb ub d cb errAt =
      PixDB.getCursor db index lb2 ub2 d cb errAt := by
  refine ⟨rfl, ?_, ?_, ?_, ?_, ?_, ?_, ?_, ?_⟩
  · simp [PixDB.bound, jsTruthy, hl]
  · simp [PixDB.bound, jsTruthy, hu]
  · simp [PixDB.bound, jsTruthy, hl, hu]
  · simp [PixDB.count, hb]
  · simp [PixDB.getAll, hb]
  · simp [PixDB.getAllKeys, hb]
  · simp [PixDB.deleteAll, hb]
  · simp [PixDB.getCursor, hb]

/-- Witness for C2 at concrete truthy bounds 2 and 5 and a shared bound
pair. -/
theorem C2_witness :
    PixDB.bound (some 2) (some 5) = some (IDBKeyRange.bound 2 5) ∧
    PixDB.count [] none (some 1) none = PixDB.count [] none (some 1) none :=
  ⟨(C2_bound_helper_shared 2 5 [] none (some 1) none (some 1) none none .next
      none none (by decide) (by decide) rfl).2.2.2.1,
   (C2_bound_helper_shared 2 5 [] none (some 1) none (some 1) none none .next
      none none (by decide) (by decide) rfl).2.2.2.2.1⟩

/-- C3, counterexample to the claim as stated: the empty string is a legal
index name, but the truthiness test of query treats a supplied empty index
name as absent, so a read with index name the empty string is scoped to
the primary key space, not to the named index key space.  In the store
holding the single record with primary key 5 and index key 1, a count at
least 4 through index name the empty string returns 1 (primary key space)
where the index key space of that name holds no key at least 4. -/
theorem C3_counterexample :
    PixDB.count [⟨5, 1, 0⟩] (some "") (some 4) none = .ok 1 ∧
    IDB.count [⟨5, 1, 0⟩] (.idx "") (PixDB.bound (some 4) none) = 0 ∧
    PixDB.execTarget (some "") .count = .primary :=
  ⟨rfl, rfl, rfl⟩

/-- C3, amended: for every supplied non-empty index name, read operations
(count, get, getAll, getAllKeys, getCursor) are scoped to the named index
key space (an empty-string index name is treated as absent); every write
operation (the delete and clear methods, hence also deleteAll despite its
index argument) always operates on the store primary key, ignoring the
index argument. -/
theorem C3_reads_use_index_writes_use_primary (name : String) (index : Option String)
    (db : StoreData) (lb ub : Option Nat) (hname : name ≠ "") :
    PixDB.execTarget (some name) .count = .idx name ∧
    PixDB.execTarget (some name) .get = .idx name ∧
    PixDB.execTarget (some name) .getAll = .idx name ∧
    PixDB.execTarget (some name) .getAllKeys = .idx name ∧
    PixDB.querySource (some name) false = .idx name ∧
    PixDB.execTarget index .delete = .primary ∧
    PixDB.execTarget index .clear = .primary ∧
    PixDB.deleteAll db index lb ub = PixDB.deleteAll db none lb ub := by
  have h2 : jsTruthyStr (some name) = true := by
    simpa [jsTruthyStr] using hname
  refine ⟨?_, ?_, ?_, ?_, ?_, ?_, ?_, ?_⟩
  · simp [PixDB.execTarget, PixDB.querySource, PixDB.execWrite, h2]
  · simp [PixDB.execTarget, PixDB.querySource, PixDB.execWrite, h2]
  · simp [PixDB.execTarget, PixDB.querySource, PixDB.execWrite, h2]
  · simp [PixDB.execTarget, PixDB.querySource, PixDB.execWrite, h2]
  · simp [PixDB.querySource, h2]
  · simp [PixDB.execTarget, PixDB.querySource, PixDB.execWrite]
  · simp [PixDB.execTarget, PixDB.querySource, PixDB.execWrite]
  · simp [PixDB.deleteAll, PixDB.execTarget, PixDB.querySource, PixDB.execWrite]

/-- Witness for C3 at the concrete index name i. -/
theorem C3_witness :
    PixDB.execTarget (some "i") .count = .idx "i" ∧
    PixDB.execTarget (some "j") .delete = .primary ∧
    PixDB.deleteAll [⟨1, 2, 3⟩] (some "j") (some 1) none =
      PixDB.deleteAll [⟨1, 2, 3⟩] none (some 1) none :=
  ⟨(C3_reads_use_index_writes_use_primary "i" (some "j") [⟨1, 2, 3⟩]
      (some 1) none (by decide)).1,
   (C3_reads_use_index_writes_use_primary "i" (some "j") [⟨1, 2, 3⟩]
      (some 1) none (by decide)).2.2.2.2.2.1,
   (C3_reads_use_index_writes_use_primary "i" (some "j") [⟨1, 2, 3⟩]
      (some 1) none (by decide)).2.2.2.2.2.2.2⟩

/-- C4, counterexample to the claim as stated: on an already-closed handle
(the connection handle is null), drop does not skip the close and delete
the database; the unconditional close dereferences the null handle, so
even with the engine deletion bound to succeed, drop rejects with the
TypeError and the stored name and version stay set instead of being
cleared. -/
theorem C4_counterexample :
    PixDB.drop ⟨none, some "test", some 1⟩ true =
      (⟨none, some "test", some 1⟩, .error (.err .typeError)) :=
  rfl

/-- C4, amended: on an open connection, drop closes it and then deletes
the entire named database; on success it resolves true and sets the
stored name and version to null (so isConnected is false afterwards); on
failure it rejects with false and the stored name and version are not
cleared.  (On an already-closed connection drop rejects with the
TypeError raised by the unconditional close instead of deleting.) -/
theorem C4_drop_on_open_connection (s : PixDBState) (c : Nat) (h : s.db = some c) :
    PixDB.drop s true = (⟨none, none, none⟩, .ok true) ∧
    PixDB.isConnected (PixDB.drop s true).1 = false ∧
    PixDB.drop s false = ({ s with db := none }, .error (.value false)) ∧
    (PixDB.drop s false).1.dbName = s.dbName ∧
    (PixDB.drop s false).1.dbVersion = s.dbVersion := by
  rcases s with ⟨d, nm, v⟩
  simp only at h
  subst h
  refine ⟨rfl, rfl, rfl, rfl, rfl⟩

/-- Witness for C4 at a concrete open state. -/
theorem C4_witness :
    PixDB.drop ⟨some 7, some "test", some 2⟩ true = (⟨none, none, none⟩, .ok true) ∧
    PixDB.isConnected (PixDB.drop ⟨some 7, some "test", some 2⟩ true).1 = false ∧
    PixDB.drop ⟨some 7, some "test", some 2⟩ false =
      (⟨none, some "test", some 2⟩, .error (.value false)) ∧
    (PixDB.drop ⟨some 7, some "test", some 2⟩ false).1.dbName = some "test" ∧
    (PixDB.drop ⟨some 7, some "test", some 2⟩ false).1.dbVersion = some 2 :=
  C4_drop_on_open_connection ⟨some 7, some "test", some 2⟩ 7 rfl

/-- C6: connect always resolves and never rejects: it yields true exactly
when the underlying open handshake succeeds (indexedDB supported and the
engine open reports success) and false on every failure outcome. -/
theorem C6_connect_always_resolves (s : PixDBState) (env : ConnectEnv) :
    ((PixDB.connect s env).2 = .ok true ∨ (PixDB.connect s env).2 = .ok false) ∧
    (∀ e : Rejection, (PixDB.connect s env).2 ≠ .error e) ∧
    ((PixDB.connect s env).2 = .ok true ↔
      (env.indexedDBSupported = true ∧ ∃ c, env.openOutcome = .ok c)) := by
  rcases env with ⟨sup, out⟩
  cases sup <;> cases out <;>
    simp [PixDB.connect, PixDB.dbConnect]

/-- C9: close has the unstated precondition of being connected: with a
null handle (after a prior close or drop) close throws the TypeError of
the null dereference instead of being a no-op, and drop, which invokes
close unconditionally, fails the same way; with a non-null handle close
never throws and only clears the handle. -/
theorem C9_close_requires_open_handle (s : PixDBState) (c : Nat) (dOk : Bool) :
    (s.db = none → PixDB.close s = .error .typeError) ∧
    (s.db = none → PixDB.drop s dOk = (s, .error (.err .typeError))) ∧
    (s.db = some c → PixDB.close s = .ok { s with db := none }) := by
  refine ⟨?_, ?_, ?_⟩ <;> intro h <;>
    simp [PixDB.close, PixDB.drop, h]

/-- Witness for C9: close and drop on a concrete closed handle fail with
the TypeError; close on a concrete open handle succeeds. -/
theorem C9_witness :
    PixDB.close ⟨none, some "x", some 1⟩ = .error .typeError ∧
    PixDB.drop ⟨none, some "x", some 1⟩ true =
      (⟨none, some "x", some 1⟩, .error (.err .typeError)) ∧
    PixDB.close ⟨some 7, some "x", some 1⟩ = .ok ⟨none, some "x", some 1⟩ :=
  ⟨(C9_close_requires_open_handle ⟨none, some "x", some 1⟩ 0 true).1 rfl,
   (C9_close_requires_open_handle ⟨none, some "x", some 1⟩ 0 true).2.1 rfl,
   (C9_close_requires_open_handle ⟨some 7, some "x", some 1⟩ 7 true).2.2 rfl⟩

/-- C5: each cursor step invokes the per-record callback on the current
record and then advances by the positive integer the callback returned,
or by 1 when the callback returns nothing or is absent; the operation
resolves true exactly when the cursor is exhausted, and rejects with the
engine-reported error when any step fails. -/
theorem C5_cursor_traversal (cb : Option (Rec → Option Nat)) (f : Rec → Option Nat)
    (r1 r2 r : Rec) (rest : List Rec) (i n : Nat) (db : StoreData)
    (index : Option String) (lb ub : Option Nat) (d : Direction) (k : Nat) (e : JsErr)
    (h1 : f r1 = none) (h2 : f r2 = some n) (h3 : 0 < n)
    (h4 : k ≤ (PixDB.getCursor db index lb ub d cb none).1.length) :
    jsAdvance none r = 1 ∧
    jsAdvance (some f) r1 = 1 ∧
    jsAdvance (some f) r2 = n ∧
    (cursorRun cb none i 0 (r :: rest)).1 =
      r :: (cursorRun cb none (i + 1) 0 (rest.drop (jsAdvance cb r - 1))).1 ∧
    (PixDB.getCursor db index lb ub d cb none).2 = .ok true ∧
    (PixDB.getCursor db index lb ub d cb (some (k, e))).2 = .error (.err e) := by
  have hn : (n == 0) = false := by
    have := Nat.pos_iff_ne_zero.mp h3
    simp [this]
  refine ⟨rfl, ?_, ?_, ?_, ?_, ?_⟩
  · simp [jsAdvance, h1]
  · simp [jsAdvance, h2, hn]
  · have hstep : cursorRun cb none i 0 (r :: rest) =
        (r :: (cursorRun cb none (i + 1) (jsAdvance cb r - 1) rest).1,
         (cursorRun cb none (i + 1) (jsAdvance cb r - 1) rest).2) := by
      simp [cursorRun, errHit]
    rw [hstep, cursorRun_skip_drop cb none rest]
  · exact getCursor_fault_free db index lb ub d cb
  · exact getCursor_fault db index lb ub d cb k e h4

/-- Witness for C5 at concrete callbacks, records and fault schedules. -/
theorem C5_witness :
    jsAdvance none ⟨9, 9, 9⟩ = 1 ∧
    jsAdvance (some (fun rr => if rr.key == 2 then some 3 else none)) ⟨1, 0, 0⟩ = 1 ∧
    jsAdvance (some (fun rr => if rr.key == 2 then some 3 else none)) ⟨2, 0, 0⟩ = 3 ∧
    (cursorRun none none 5 0 [⟨9, 9, 9⟩]).1 =
      ⟨9, 9, 9⟩ :: (cursorRun none none (5 + 1) 0
        (List.drop (jsAdvance none ⟨9, 9, 9⟩ - 1) [])).1 ∧
    (PixDB.getCursor [⟨1, 2, 3⟩] none none none .next none none).2 = .ok true ∧
    (PixDB.getCursor [⟨1, 2, 3⟩] none none none .next none
      (some (0, .operationError 4))).2 = .error (.err (.operationError 4)) :=
  C5_cursor_traversal none (fun rr => if rr.key == 2 then some 3 else none)
    ⟨1, 0, 0⟩ ⟨2, 0, 0⟩ ⟨9, 9, 9⟩ [] 5 3 [⟨1, 2, 3⟩] none none none .next 0
    (.operationError 4) rfl rfl (by decide) (Nat.zero_le _)



